import Mathlib

/-!
Shallow embedding of `lte/gateway/python/magma/pipelined/openflow/flows.py`
(magma pipelined OpenFlow flow helpers).

Pure message construction is embedded as Lean functions; the Python
`raise Exception(...)` paths of `get_add_flow_msg` become `Except.error`
values of an explicit error type.  Collaborator values that the source
only forwards (ryu actions, instructions, matches) are closed inductive
vocabularies with an opaque `Other` constructor, following the action
vocabulary the compiler actually inspects: `NXActionResubmitTable`
(forward-to-table / resubmit) and `NXActionRegLoad2` (register load).
-/

namespace Flows

/-- OpenFlow `OFPFC_ADD` flow-mod command value (ryu `ofproto` constant;
the implicit default command of `OFPFlowMod` on the add path). -/
def OFPFC_ADD : Nat := 0

/-- OpenFlow `OFPFC_DELETE` flow-mod command value (ryu `ofproto` constant),
passed explicitly by `delete_flow` (flows.py line 180). -/
def OFPFC_DELETE : Nat := 3

/-- OpenFlow `OFPIT_APPLY_ACTIONS` instruction type (ryu `ofproto` constant),
used by `__get_instructions_for_actions` (flows.py line 209). -/
def OFPIT_APPLY_ACTIONS : Nat := 4

/-- OpenFlow wildcard group id `OFPG_ANY` (ryu `ofproto` constant),
used by `delete_flow` (flows.py line 182). -/
def OFPG_ANY : Nat := 0xffffffff

/-- OpenFlow wildcard port `OFPP_ANY` (ryu `ofproto` constant),
used by `delete_flow` (flows.py line 183). -/
def OFPP_ANY : Nat := 0xffffffff

/-- Declared default priority constant (flows.py line 17). -/
def DEFAULT_PRIORITY : Nat := 10

/-- Minimum priority constant (flows.py line 18). -/
def MINIMUM_PRIORITY : Nat := 0

/-- Maximum priority constant (flows.py line 19). -/
def MAXIMUM_PRIORITY : Nat := 65535

/-- Cookie wildcard constant (flows.py line 20). -/
def OVS_COOKIE_MATCH_ALL : Nat := 0xffffffff

/-- Modelled from the spec: `REG_ZERO_VAL`, imported by flows.py from
`magma.pipelined.openflow.registers` which is not under src/.  Spec section 4.1
step 3c: each appended register-load sets the register to zero. -/
def REG_ZERO_VAL : Nat := 0

/-- Default value of the `priority` parameter in the signatures of `add_flow`
(flows.py line 24) and `get_add_flow_msg` (flows.py line 72):
`MINIMUM_PRIORITY`, not `DEFAULT_PRIORITY`. -/
def signature_default_priority : Nat := MINIMUM_PRIORITY

/-- Action vocabulary.  Registers are identified by `Nat`.
`NXActionResubmitTable` is the raw forward-to-table (resubmit) action;
`NXActionRegLoad2` loads `value` into register `dst`; every other ryu
action is opaque to the compiler and modelled by `OtherAction`. -/
inductive Action where
  | NXActionResubmitTable (table_id : Nat)
  | NXActionRegLoad2 (dst : Nat) (value : Nat)
  | OtherAction (tag : Nat)
deriving DecidableEq, Repr

/-- Instruction vocabulary: the apply-actions wrapper built by
`__get_instructions_for_actions`, plus opaque caller-supplied instructions. -/
inductive Instruction where
  | OFPInstructionActions (inst_type : Nat) (actions : List Action)
  | OtherInstruction (tag : Nat)
deriving DecidableEq, Repr

/-- Modelled from the spec: `MagmaMatch`, imported by flows.py from
`magma.pipelined.openflow.magma_match` which is not under src/.  The spec
treats the match as an opaque value forwarded unchanged; `ryu_match` is the
keyword dictionary passed to `parser.OFPMatch(**match.ryu_match)`. -/
structure MagmaMatch where
  ryu_match : List (String × Nat)
deriving DecidableEq, Repr

/-- Modelled from the spec: `MagmaMatch()` with no arguments is the empty,
match-everything predicate (used by `delete_all_flows_from_table`,
flows.py line 201). -/
def MagmaMatch.empty : MagmaMatch := ⟨[]⟩

/-- The `OFPFlowMod` message as constructed by this module.  Fields the
source never passes on a given path are `none` (ryu defaults). -/
structure OFPFlowMod where
  command : Nat
  table_id : Nat
  ofp_match : List (String × Nat)
  instructions : List Instruction
  priority : Option Nat
  cookie : Option Nat
  idle_timeout : Option Nat
  hard_timeout : Option Nat
  out_group : Option Nat
  out_port : Option Nat
deriving DecidableEq, Repr

/-- Structural compile-time failures of `get_add_flow_msg`: the two
`raise Exception(...)` sites (flows.py lines 222 and 233). -/
inductive CompileError where
  | RawResubmitNotAllowed
  | ScratchRegisterConflict
deriving DecidableEq, Repr

/-- Predicate for `isinstance(action, parser.NXActionResubmitTable)`. -/
def is_resubmit_table : Action → Bool
  | Action.NXActionResubmitTable _ => true
  | _ => false

/-- Embeds `_check_resubmit_action` (flows.py lines 228-235): `true` exactly
when the Python helper would raise. -/
def _check_resubmit_action (actions : List Action) : Bool :=
  actions.any is_resubmit_table

/-- Predicate for `isinstance(action, parser.NXActionRegLoad2) and
action.dst in SCRATCH_REGS`, with the scratch register set passed as
read-only configuration. -/
def is_scratch_reg_load (scratch_regs : List Nat) : Action → Bool
  | Action.NXActionRegLoad2 dst _ => decide (dst ∈ scratch_regs)
  | _ => false

/-- Embeds `_check_scratch_reg_load` (flows.py lines 216-225): `true` exactly
when the Python helper would raise (`actions is not None and any(...)`). -/
def _check_scratch_reg_load (scratch_regs : List Nat)
    (actions : Option (List Action)) : Bool :=
  match actions with
  | none => false
  | some acts => acts.any (is_scratch_reg_load scratch_regs)

/-- Embeds `__get_instructions_for_actions` (flows.py lines 205-213):
`if actions and len(actions) > 0` wraps the actions in a single
apply-actions instruction, `else` returns `instructions or []`. -/
def __get_instructions_for_actions (actions : Option (List Action))
    (instructions : Option (List Instruction)) : List Instruction :=
  match actions with
  | some acts =>
      if acts.length > 0 then
        [Instruction.OFPInstructionActions OFPIT_APPLY_ACTIONS acts]
      else
        instructions.getD []
  | none => instructions.getD []

/-- Embeds `get_add_flow_msg` (flows.py lines 71-138).  `scratch_regs` is
the `SCRATCH_REGS` configuration (imported from `registers`, outside src/),
passed as a parameter.  Parameter order after it follows the Python
signature: table, match, actions, instructions, priority, cookie,
idle_timeout, hard_timeout, resubmit_next_service, resubmit_current_service. -/
def get_add_flow_msg (scratch_regs : List Nat) (table : Nat)
    (mtch : MagmaMatch) (actions : Option (List Action))
    (instructions : Option (List Instruction)) (priority : Nat)
    (cookie : Nat) (idle_timeout : Nat) (hard_timeout : Nat)
    (resubmit_next_service : Option Nat)
    (resubmit_current_service : Option Nat) :
    Except CompileError OFPFlowMod :=
  let actions := actions.getD []
  if _check_resubmit_action actions then
    Except.error CompileError.RawResubmitNotAllowed
  else
    let extended : Except CompileError (List Action) :=
      match resubmit_next_service with
      | some next =>
          if _check_scratch_reg_load scratch_regs (some actions) then
            Except.error CompileError.ScratchRegisterConflict
          else
            Except.ok (actions ++ [Action.NXActionResubmitTable next] ++
              scratch_regs.map fun reg => Action.NXActionRegLoad2 reg REG_ZERO_VAL)
      | none =>
          match resubmit_current_service with
          | some cur => Except.ok (actions ++ [Action.NXActionResubmitTable cur])
          | none => Except.ok actions
    match extended with
    | Except.error e => Except.error e
    | Except.ok acts =>
        Except.ok
          { command := OFPFC_ADD
            table_id := table
            ofp_match := mtch.ryu_match
            instructions := __get_instructions_for_actions (some acts) instructions
            priority := some priority
            cookie := some cookie
            idle_timeout := some idle_timeout
            hard_timeout := some hard_timeout
            out_group := none
            out_port := none }

/-- Embeds the message built by `delete_flow` (flows.py lines 175-184):
a delete-command flow-mod with wildcard out group and port; the actions,
possibly `None`, are only passed through `__get_instructions_for_actions`
with no structural checks. -/
def delete_flow_msg (table : Nat) (mtch : MagmaMatch)
    (actions : Option (List Action))
    (instructions : Option (List Instruction)) : OFPFlowMod :=
  { command := OFPFC_DELETE
    table_id := table
    ofp_match := mtch.ryu_match
    instructions := __get_instructions_for_actions actions instructions
    priority := none
    cookie := none
    idle_timeout := none
    hard_timeout := none
    out_group := some OFPG_ANY
    out_port := some OFPP_ANY }

/-- Modelled from the spec: the transport channel consumed by
`messages.send_msg` (module `magma.pipelined.openflow.messages`, outside
src/).  For a given message, attempt index `i` (0-based) succeeds exactly
when the channel returns `true`. -/
def Channel : Type := OFPFlowMod → Nat → Bool

/-- Modelled from the spec: the retry loop of `messages.send_msg`
(spec section 4.2): with `remaining` retries left after the current
attempt, try the current attempt; on success return the total number of
attempts made, on exhaustion return a `DispatchError` carrying the
attempt count. -/
def send_loop (channel : Channel) (msg : OFPFlowMod) (attempt : Nat) :
    Nat → Except Nat Nat
  | 0 =>
      if channel msg attempt then Except.ok (attempt + 1)
      else Except.error (attempt + 1)
  | r + 1 =>
      if channel msg attempt then Except.ok (attempt + 1)
      else send_loop channel msg (attempt + 1) r

/-- Modelled from the spec: `messages.send_msg(datapath, msg, retries)`
(outside src/): attempts delivery up to `retries + 1` times total
(spec section 4.2); `Except.ok n` / `Except.error n` carry the number of
attempts made. -/
def send_msg (channel : Channel) (msg : OFPFlowMod) (retries : Nat) :
    Except Nat Nat :=
  send_loop channel msg 0 retries

/-- Errors surfaced by the public operations: a structural compile failure
(never retried) or a terminal dispatch failure carrying the attempt count. -/
inductive FlowOpError where
  | CompileFailure (e : CompileError)
  | DispatchError (attempts : Nat)
deriving DecidableEq, Repr

/-- Embeds `add_flow` (flows.py lines 23-68): compile via `get_add_flow_msg`,
then dispatch the message with `send_msg` passing `retries` unchanged.
Parameter order after `scratch_regs`/`channel` follows the Python signature
(retries sits between priority and cookie). -/
def add_flow (scratch_regs : List Nat) (channel : Channel) (table : Nat)
    (mtch : MagmaMatch) (actions : Option (List Action))
    (instructions : Option (List Instruction)) (priority : Nat)
    (retries : Nat) (cookie : Nat) (idle_timeout : Nat) (hard_timeout : Nat)
    (resubmit_next_service : Option Nat)
    (resubmit_current_service : Option Nat) : Except FlowOpError Nat :=
  match get_add_flow_msg scratch_regs table mtch actions instructions priority
      cookie idle_timeout hard_timeout resubmit_next_service
      resubmit_current_service with
  | Except.error e => Except.error (FlowOpError.CompileFailure e)
  | Except.ok mod =>
      match send_msg channel mod retries with
      | Except.ok n => Except.ok n
      | Except.error n => Except.error (FlowOpError.DispatchError n)

/-- Embeds `delete_flow` (flows.py lines 156-186): build the delete message
(no structural checks) and dispatch it with `retries` unchanged. -/
def delete_flow (channel : Channel) (table : Nat) (mtch : MagmaMatch)
    (actions : Option (List Action))
    (instructions : Option (List Instruction)) (retries : Nat) :
    Except Nat Nat :=
  send_msg channel (delete_flow_msg table mtch actions instructions) retries

/-- Embeds `delete_all_flows_from_table` (flows.py lines 189-202):
`delete_flow(datapath, table, MagmaMatch(), retries=retries)` — empty match,
no actions, no instructions, same retry count. -/
def delete_all_flows_from_table (channel : Channel) (table : Nat)
    (retries : Nat) : Except Nat Nat :=
  delete_flow channel table MagmaMatch.empty none none retries

/-!  Helper lemmas shared by the claim theorems. -/

/-- Lists containing a raw resubmit action trip `_check_resubmit_action`. -/
theorem check_resubmit_true_of (A : List Action) (t : Nat)
    (h : Action.NXActionResubmitTable t ∈ A) :
    _check_resubmit_action A = true := by
  unfold _check_resubmit_action
  exact List.any_eq_true.mpr ⟨_, h, rfl⟩

/-- Lists with no raw resubmit action pass `_check_resubmit_action`. -/
theorem check_resubmit_false_of (A : List Action)
    (h : ∀ t, Action.NXActionResubmitTable t ∉ A) :
    _check_resubmit_action A = false := by
  unfold _check_resubmit_action
  rw [List.any_eq_false]
  intro a ha
  cases a with
  | NXActionResubmitTable t => exact absurd ha (h t)
  | NXActionRegLoad2 dst v => simp [is_resubmit_table]
  | OtherAction tag => simp [is_resubmit_table]

/-- Lists containing a load of a scratch register trip
`_check_scratch_reg_load`. -/
theorem check_scratch_true_of (scratch_regs : List Nat) (A : List Action)
    (r v : Nat) (hr : r ∈ scratch_regs)
    (h : Action.NXActionRegLoad2 r v ∈ A) :
    _check_scratch_reg_load scratch_regs (some A) = true := by
  unfold _check_scratch_reg_load
  exact List.any_eq_true.mpr ⟨_, h, by simp [is_scratch_reg_load, hr]⟩

/-- Lists with no scratch-register load pass `_check_scratch_reg_load`. -/
theorem check_scratch_false_of (scratch_regs : List Nat) (A : List Action)
    (h : ∀ r v, r ∈ scratch_regs → Action.NXActionRegLoad2 r v ∉ A) :
    _check_scratch_reg_load scratch_regs (some A) = false := by
  unfold _check_scratch_reg_load
  rw [List.any_eq_false]
  intro a ha
  cases a with
  | NXActionResubmitTable t => simp [is_scratch_reg_load]
  | NXActionRegLoad2 dst v =>
      simp only [is_scratch_reg_load, decide_eq_true_eq]
      intro hd
      exact h dst v hd ha
  | OtherAction tag => simp [is_scratch_reg_load]

/-- Non-empty action lists are wrapped in a single apply-actions
instruction. -/
theorem geti_nonempty (acts : List Action)
    (instructions : Option (List Instruction)) (h : acts ≠ []) :
    __get_instructions_for_actions (some acts) instructions =
      [Instruction.OFPInstructionActions OFPIT_APPLY_ACTIONS acts] := by
  simp only [__get_instructions_for_actions]
  rw [if_pos]
  exact List.length_pos.mpr h

/-- Shape of a successful compile in the next-service branch. -/
theorem add_msg_next (scratch_regs : List Nat) (table next : Nat)
    (mtch : MagmaMatch) (A : List Action)
    (instructions : Option (List Instruction)) (p ck it ht : Nat)
    (rcs : Option Nat)
    (hres : _check_resubmit_action A = false)
    (hscr : _check_scratch_reg_load scratch_regs (some A) = false) :
    get_add_flow_msg scratch_regs table mtch (some A) instructions p ck it ht
        (some next) rcs =
      Except.ok
        { command := OFPFC_ADD
          table_id := table
          ofp_match := mtch.ryu_match
          instructions := [Instruction.OFPInstructionActions OFPIT_APPLY_ACTIONS
            (A ++ [Action.NXActionResubmitTable next] ++
              scratch_regs.map fun reg => Action.NXActionRegLoad2 reg REG_ZERO_VAL)]
          priority := some p
          cookie := some ck
          idle_timeout := some it
          hard_timeout := some ht
          out_group := none
          out_port := none } := by
  unfold get_add_flow_msg
  simp only [Option.getD_some, hres, Bool.false_eq_true, if_false, hscr]
  rw [geti_nonempty]
  simp

/-- Shape of a successful compile in the current-service branch. -/
theorem add_msg_current (scratch_regs : List Nat) (table cur : Nat)
    (mtch : MagmaMatch) (A : List Action)
    (instructions : Option (List Instruction)) (p ck it ht : Nat)
    (hres : _check_resubmit_action A = false) :
    get_add_flow_msg scratch_regs table mtch (some A) instructions p ck it ht
        none (some cur) =
      Except.ok
        { command := OFPFC_ADD
          table_id := table
          ofp_match := mtch.ryu_match
          instructions := [Instruction.OFPInstructionActions OFPIT_APPLY_ACTIONS
            (A ++ [Action.NXActionResubmitTable cur])]
          priority := some p
          cookie := some ck
          idle_timeout := some it
          hard_timeout := some ht
          out_group := none
          out_port := none } := by
  unfold get_add_flow_msg
  simp only [Option.getD_some, hres, Bool.false_eq_true, if_false]
  rw [geti_nonempty]
  simp

/-- Shape of a successful compile with no forwarding requested. -/
theorem add_msg_plain (scratch_regs : List Nat) (table : Nat)
    (mtch : MagmaMatch) (A : List Action)
    (instructions : Option (List Instruction)) (p ck it ht : Nat)
    (hres : _check_resubmit_action A = false) :
    get_add_flow_msg scratch_regs table mtch (some A) instructions p ck it ht
        none none =
      Except.ok
        { command := OFPFC_ADD
          table_id := table
          ofp_match := mtch.ryu_match
          instructions := __get_instructions_for_actions (some A) instructions
          priority := some p
          cookie := some ck
          idle_timeout := some it
          hard_timeout := some ht
          out_group := none
          out_port := none } := by
  unfold get_add_flow_msg
  simp only [Option.getD_some, hres, Bool.false_eq_true, if_false]

/-- A raw resubmit action in the caller-supplied list makes the compile
fail with `RawResubmitNotAllowed`, whatever the other arguments are. -/
theorem add_msg_raw_error (scratch_regs : List Nat) (table : Nat)
    (mtch : MagmaMatch) (actions : Option (List Action))
    (instructions : Option (List Instruction)) (p ck it ht : Nat)
    (rns rcs : Option Nat)
    (hres : _check_resubmit_action (actions.getD []) = true) :
    get_add_flow_msg scratch_regs table mtch actions instructions p ck it ht
        rns rcs = Except.error CompileError.RawResubmitNotAllowed := by
  unfold get_add_flow_msg
  simp only [hres, if_true]

/-- A scratch-register load combined with next-service forwarding makes the
compile fail with `ScratchRegisterConflict` (when no raw resubmit fired). -/
theorem add_msg_scratch_error (scratch_regs : List Nat) (table next : Nat)
    (mtch : MagmaMatch) (actions : Option (List Action))
    (instructions : Option (List Instruction)) (p ck it ht : Nat)
    (rcs : Option Nat)
    (hres : _check_resubmit_action (actions.getD []) = false)
    (hscr : _check_scratch_reg_load scratch_regs (some (actions.getD [])) = true) :
    get_add_flow_msg scratch_regs table mtch actions instructions p ck it ht
        (some next) rcs = Except.error CompileError.ScratchRegisterConflict := by
  unfold get_add_flow_msg
  simp only [hres, Bool.false_eq_true, if_false, hscr, if_true]

/-- Every successful compile carries the priority it was called with. -/
theorem priority_of_ok (scratch_regs : List Nat) (table : Nat)
    (mtch : MagmaMatch) (actions : Option (List Action))
    (instructions : Option (List Instruction)) (p ck it ht : Nat)
    (rns rcs : Option Nat) (msg : OFPFlowMod)
    (h : get_add_flow_msg scratch_regs table mtch actions instructions p ck it
        ht rns rcs = Except.ok msg) :
    msg.priority = some p := by
  have hEq : get_add_flow_msg scratch_regs table mtch actions instructions p
      ck it ht rns rcs =
      get_add_flow_msg scratch_regs table mtch (some (actions.getD []))
        instructions p ck it ht rns rcs := rfl
  rw [hEq] at h
  by_cases hres : _check_resubmit_action (actions.getD []) = true
  · rw [add_msg_raw_error scratch_regs table mtch (some (actions.getD []))
      instructions p ck it ht rns rcs hres] at h
    cases h
  · have hres' : _check_resubmit_action (actions.getD []) = false := by
      simpa using hres
    cases rns with
    | some next =>
        by_cases hscr :
            _check_scratch_reg_load scratch_regs (some (actions.getD [])) = true
        · rw [add_msg_scratch_error scratch_regs table next mtch
            (some (actions.getD [])) instructions p ck it ht rcs hres' hscr] at h
          cases h
        · have hscr' :
              _check_scratch_reg_load scratch_regs (some (actions.getD []))
                = false := by simpa using hscr
          rw [add_msg_next scratch_regs table next mtch (actions.getD [])
            instructions p ck it ht rcs hres' hscr'] at h
          cases h; rfl
    | none =>
        cases rcs with
        | some cur =>
            rw [add_msg_current scratch_regs table cur mtch (actions.getD [])
              instructions p ck it ht hres'] at h
            cases h; rfl
        | none =>
            rw [add_msg_plain scratch_regs table mtch (actions.getD [])
              instructions p ck it ht hres'] at h
            cases h; rfl

/-- An always-failing channel exhausts the loop: starting at `attempt`
with `n` retries left, the loop makes `n + 1` further attempts and fails. -/
theorem send_loop_all_fail (channel : Channel) (msg : OFPFlowMod)
    (h : ∀ i, channel msg i = false) :
    ∀ (n a : Nat), send_loop channel msg a n = Except.error (a + n + 1) := by
  intro n
  induction n with
  | zero => intro a; simp [send_loop, h]
  | succ k ih =>
      intro a
      rw [send_loop, h a]
      simp only [Bool.false_eq_true, if_false, ih (a + 1)]
      congr 1
      omega

/-- A channel that first succeeds at attempt `r`: if the loop reaches
attempt `a` with `n` retries left and `a + n = r`, it ends in success
after `r + 1` total attempts. -/
theorem send_loop_eventual (channel : Channel) (msg : OFPFlowMod) (r : Nat)
    (h : ∀ i, channel msg i = decide (r ≤ i)) :
    ∀ (n a : Nat), a + n = r → send_loop channel msg a n = Except.ok (r + 1) := by
  intro n
  induction n with
  | zero =>
      intro a ha
      have : a = r := by omega
      subst this
      rw [send_loop, h a, if_pos (by simp)]
  | succ k ih =>
      intro a ha
      rw [send_loop, h a]
      have hlt : ¬ (r ≤ a) := by omega
      simp only [decide_eq_true_eq, hlt, if_false]
      exact ih (a + 1) (by omega)

/-!  Claim theorems. -/

/-- Claim C1: compiling with `resubmit_next_service = next` on scratch set
`scratch_regs` and an action list `A` with no raw resubmit and no
scratch-register load yields the action sequence
`A ++ [ForwardToTable next] ++ [RegisterLoad r 0 for r in scratch_regs]`,
in exactly that order inside a single apply-actions instruction.  The
embedding is a pure function, so the output is the same on every run with
the same inputs. -/
theorem c1_next_service_action_sequence
    (scratch_regs : List Nat) (table next : Nat) (mtch : MagmaMatch)
    (A : List Action) (instructions : Option (List Instruction))
    (p ck it ht : Nat)
    (hres : ∀ t, Action.NXActionResubmitTable t ∉ A)
    (hscr : ∀ r v, r ∈ scratch_regs → Action.NXActionRegLoad2 r v ∉ A) :
    get_add_flow_msg scratch_regs table mtch (some A) instructions p ck it ht
        (some next) none =
      Except.ok
        { command := OFPFC_ADD
          table_id := table
          ofp_match := mtch.ryu_match
          instructions := [Instruction.OFPInstructionActions OFPIT_APPLY_ACTIONS
            (A ++ [Action.NXActionResubmitTable next] ++
              scratch_regs.map fun reg => Action.NXActionRegLoad2 reg 0)]
          priority := some p
          cookie := some ck
          idle_timeout := some it
          hard_timeout := some ht
          out_group := none
          out_port := none } := by
  have h := add_msg_next scratch_regs table next mtch A instructions p ck it ht
    none (check_resubmit_false_of A hres)
    (check_scratch_false_of scratch_regs A hscr)
  simpa [REG_ZERO_VAL] using h

/-- Witness for C1: scratch set `[1, 2, 3]`, next table `5`, one opaque
caller action. -/
theorem c1_witness :
    (∀ t, Action.NXActionResubmitTable t ∉ [Action.OtherAction 7])
  ∧ (∀ r v, r ∈ ([1, 2, 3] : List Nat) →
      Action.NXActionRegLoad2 r v ∉ [Action.OtherAction 7])
  ∧ get_add_flow_msg [1, 2, 3] 0 MagmaMatch.empty
      (some [Action.OtherAction 7]) none 0 0 0 0 (some 5) none =
      Except.ok
        { command := OFPFC_ADD
          table_id := 0
          ofp_match := []
          instructions := [Instruction.OFPInstructionActions OFPIT_APPLY_ACTIONS
            [Action.OtherAction 7, Action.NXActionResubmitTable 5,
             Action.NXActionRegLoad2 1 0, Action.NXActionRegLoad2 2 0,
             Action.NXActionRegLoad2 3 0]]
          priority := some 0
          cookie := some 0
          idle_timeout := some 0
          hard_timeout := some 0
          out_group := none
          out_port := none } := by
  refine ⟨fun t ht => by simp at ht, fun r v _ hm => by simp at hm, ?_⟩
  have h := c1_next_service_action_sequence [1, 2, 3] 0 5 MagmaMatch.empty
    [Action.OtherAction 7] none 0 0 0 0
    (fun t ht => by simp at ht) (fun r v _ hm => by simp at hm)
  simpa using h

/-- Claim C2: an action list containing a raw resubmit action always makes
the compile fail with `RawResubmitNotAllowed`, for every combination of the
other fields; and when the caller-supplied list is clean, the error is never
produced, so the compiler-appended forward action never triggers the check. -/
theorem c2_raw_resubmit_rejected
    (scratch_regs : List Nat) (table : Nat) (mtch : MagmaMatch)
    (A : List Action) (instructions : Option (List Instruction))
    (p ck it ht : Nat) (rns rcs : Option Nat) :
    ((∃ t, Action.NXActionResubmitTable t ∈ A) →
      get_add_flow_msg scratch_regs table mtch (some A) instructions p ck it ht
        rns rcs = Except.error CompileError.RawResubmitNotAllowed)
  ∧ ((∀ t, Action.NXActionResubmitTable t ∉ A) →
      get_add_flow_msg scratch_regs table mtch (some A) instructions p ck it ht
        rns rcs ≠ Except.error CompileError.RawResubmitNotAllowed) := by
  constructor
  · rintro ⟨t, hmem⟩
    exact add_msg_raw_error scratch_regs table mtch (some A) instructions
      p ck it ht rns rcs (check_resubmit_true_of A t hmem)
  · intro hno
    have hres := check_resubmit_false_of A hno
    cases rns with
    | some next =>
        by_cases hscr : _check_scratch_reg_load scratch_regs (some A) = true
        · rw [add_msg_scratch_error scratch_regs table next mtch (some A)
            instructions p ck it ht rcs hres hscr]
          simp
        · have hscr' : _check_scratch_reg_load scratch_regs (some A) = false := by
            simpa using hscr
          rw [add_msg_next scratch_regs table next mtch A instructions
            p ck it ht rcs hres hscr']
          simp
    | none =>
        cases rcs with
        | some cur =>
            rw [add_msg_current scratch_regs table cur mtch A instructions
              p ck it ht hres]
            simp
        | none =>
            rw [add_msg_plain scratch_regs table mtch A instructions
              p ck it ht hres]
            simp

/-- Witness for C2: a list holding a raw resubmit to table `4` is rejected. -/
theorem c2_witness :
    (∃ t, Action.NXActionResubmitTable t ∈ [Action.NXActionResubmitTable 4])
  ∧ get_add_flow_msg [1] 2 MagmaMatch.empty
      (some [Action.NXActionResubmitTable 4]) none 0 0 0 0 none none =
      Except.error CompileError.RawResubmitNotAllowed := by
  refine ⟨⟨4, by simp⟩, ?_⟩
  exact (c2_raw_resubmit_rejected [1] 2 MagmaMatch.empty
    [Action.NXActionResubmitTable 4] none 0 0 0 0 none none).1 ⟨4, by simp⟩

/-- Counterexample to C3 as stated: with scratch set `[1]` and action list
`[NXActionResubmitTable 2, NXActionRegLoad2 1 5]` (which does contain a
register-load targeting scratch register `1`), compiling with
`resubmit_next_service = 3` fails with `RawResubmitNotAllowed`, not with
`ScratchRegisterConflict`: the raw-resubmit check runs first. -/
theorem c3_counterexample :
    (1 : Nat) ∈ ([1] : List Nat)
  ∧ Action.NXActionRegLoad2 1 5 ∈
      [Action.NXActionResubmitTable 2, Action.NXActionRegLoad2 1 5]
  ∧ get_add_flow_msg [1] 0 MagmaMatch.empty
      (some [Action.NXActionResubmitTable 2, Action.NXActionRegLoad2 1 5])
      none 0 0 0 0 (some 3) none
      = Except.error CompileError.RawResubmitNotAllowed
  ∧ get_add_flow_msg [1] 0 MagmaMatch.empty
      (some [Action.NXActionResubmitTable 2, Action.NXActionRegLoad2 1 5])
      none 0 0 0 0 (some 3) none
      ≠ Except.error CompileError.ScratchRegisterConflict := by
  refine ⟨by simp, by simp, rfl, ?_⟩
  rw [show get_add_flow_msg [1] 0 MagmaMatch.empty
      (some [Action.NXActionResubmitTable 2, Action.NXActionRegLoad2 1 5])
      none 0 0 0 0 (some 3) none
      = Except.error CompileError.RawResubmitNotAllowed from rfl]
  simp

/-- Claim C3 (amended): with `resubmit_next_service = next`, an action list
that contains no raw resubmit action and contains a load of a scratch
register fails with `ScratchRegisterConflict`; and when next-service
forwarding is not requested, `ScratchRegisterConflict` is never produced,
whatever the actions and the current-service forwarding. -/
theorem c3_scratch_register_conflict
    (scratch_regs : List Nat) (table next : Nat) (mtch : MagmaMatch)
    (A : List Action) (instructions : Option (List Instruction))
    (p ck it ht : Nat) (rcs : Option Nat) (r v : Nat)
    (hr : r ∈ scratch_regs) (hmem : Action.NXActionRegLoad2 r v ∈ A)
    (hnores : ∀ t, Action.NXActionResubmitTable t ∉ A) :
    get_add_flow_msg scratch_regs table mtch (some A) instructions p ck it ht
        (some next) rcs = Except.error CompileError.ScratchRegisterConflict
  ∧ ∀ (A' : Option (List Action)) (insts' : Option (List Instruction))
      (rcs' : Option Nat),
      get_add_flow_msg scratch_regs table mtch A' insts' p ck it ht none rcs'
        ≠ Except.error CompileError.ScratchRegisterConflict := by
  constructor
  · exact add_msg_scratch_error scratch_regs table next mtch (some A)
      instructions p ck it ht rcs (check_resubmit_false_of A hnores)
      (check_scratch_true_of scratch_regs A r v hr hmem)
  · intro A' insts' rcs'
    have hEq : get_add_flow_msg scratch_regs table mtch A' insts' p ck it ht
        none rcs' =
        get_add_flow_msg scratch_regs table mtch (some (A'.getD [])) insts'
          p ck it ht none rcs' := rfl
    by_cases hres : _check_resubmit_action (A'.getD []) = true
    · rw [add_msg_raw_error scratch_regs table mtch A' insts' p ck it ht
        none rcs' hres]
      simp
    · have hres' : _check_resubmit_action (A'.getD []) = false := by
        simpa using hres
      rw [hEq]
      cases rcs' with
      | some cur =>
          rw [add_msg_current scratch_regs table cur mtch (A'.getD []) insts'
            p ck it ht hres']
          simp
      | none =>
          rw [add_msg_plain scratch_regs table mtch (A'.getD []) insts'
            p ck it ht hres']
          simp

/-- Witness for C3 (amended): scratch set `[1, 2]`, a load of register `2`,
next service table `6`. -/
theorem c3_witness :
    (2 : Nat) ∈ ([1, 2] : List Nat)
  ∧ Action.NXActionRegLoad2 2 9 ∈ [Action.NXActionRegLoad2 2 9]
  ∧ (∀ t, Action.NXActionResubmitTable t ∉ [Action.NXActionRegLoad2 2 9])
  ∧ get_add_flow_msg [1, 2] 0 MagmaMatch.empty
      (some [Action.NXActionRegLoad2 2 9]) none 0 0 0 0 (some 6) none
      = Except.error CompileError.ScratchRegisterConflict := by
  refine ⟨by simp, by simp, fun t ht => by simp at ht, ?_⟩
  exact (c3_scratch_register_conflict [1, 2] 0 6 MagmaMatch.empty
    [Action.NXActionRegLoad2 2 9] none 0 0 0 0 none 2 9 (by simp) (by simp)
    (fun t ht => by simp at ht)).1

/-- Claim C4: compiling with `resubmit_current_service = next` and a clean
action list `A` appends exactly one forward-to-table action and no register
resets, whatever the scratch register set holds. -/
theorem c4_current_service_sequence
    (scratch_regs : List Nat) (table next : Nat) (mtch : MagmaMatch)
    (A : List Action) (instructions : Option (List Instruction))
    (p ck it ht : Nat)
    (hnores : ∀ t, Action.NXActionResubmitTable t ∉ A) :
    get_add_flow_msg scratch_regs table mtch (some A) instructions p ck it ht
        none (some next) =
      Except.ok
        { command := OFPFC_ADD
          table_id := table
          ofp_match := mtch.ryu_match
          instructions := [Instruction.OFPInstructionActions OFPIT_APPLY_ACTIONS
            (A ++ [Action.NXActionResubmitTable next])]
          priority := some p
          cookie := some ck
          idle_timeout := some it
          hard_timeout := some ht
          out_group := none
          out_port := none } :=
  add_msg_current scratch_regs table next mtch A instructions p ck it ht
    (check_resubmit_false_of A hnores)

/-- Witness for C4: current-service forward to table `3` with a non-empty
scratch set `[1, 2, 3]` and an action list that even loads scratch
register `1` — no reset actions are appended and no error is raised. -/
theorem c4_witness :
    (∀ t, Action.NXActionResubmitTable t ∉ [Action.NXActionRegLoad2 1 9])
  ∧ get_add_flow_msg [1, 2, 3] 0 MagmaMatch.empty
      (some [Action.NXActionRegLoad2 1 9]) none 0 0 0 0 none (some 3) =
      Except.ok
        { command := OFPFC_ADD
          table_id := 0
          ofp_match := []
          instructions := [Instruction.OFPInstructionActions OFPIT_APPLY_ACTIONS
            [Action.NXActionRegLoad2 1 9, Action.NXActionResubmitTable 3]]
          priority := some 0
          cookie := some 0
          idle_timeout := some 0
          hard_timeout := some 0
          out_group := none
          out_port := none } := by
  refine ⟨fun t ht => by simp at ht, ?_⟩
  have h := c4_current_service_sequence [1, 2, 3] 0 3 MagmaMatch.empty
    [Action.NXActionRegLoad2 1 9] none 0 0 0 0 (fun t ht => by simp at ht)
  simpa using h

/-- Claim C5: a non-empty (possibly forwarding-extended) action sequence
becomes exactly one apply-actions instruction and the caller-supplied
instructions are ignored; an empty or absent action sequence yields the
caller-supplied instructions verbatim (empty when absent); and compiling
with `actions = none`, `instructions = none` and no forwarding produces an
empty instruction sequence. -/
theorem c5_instruction_assembly :
    (∀ (acts : List Action) (insts : Option (List Instruction)), acts ≠ [] →
      __get_instructions_for_actions (some acts) insts =
        [Instruction.OFPInstructionActions OFPIT_APPLY_ACTIONS acts])
  ∧ (∀ insts : Option (List Instruction),
      __get_instructions_for_actions (some []) insts = insts.getD []
      ∧ __get_instructions_for_actions none insts = insts.getD [])
  ∧ (∀ (scratch_regs : List Nat) (table p ck it ht : Nat) (mtch : MagmaMatch),
      get_add_flow_msg scratch_regs table mtch none none p ck it ht none none =
        Except.ok
          { command := OFPFC_ADD
            table_id := table
            ofp_match := mtch.ryu_match
            instructions := []
            priority := some p
            cookie := some ck
            idle_timeout := some it
            hard_timeout := some ht
            out_group := none
            out_port := none }) := by
  refine ⟨fun acts insts h => geti_nonempty acts insts h,
    fun insts => ⟨rfl, rfl⟩, fun scratch_regs table p ck it ht mtch => rfl⟩

/-- Witness for C5: a one-action list is wrapped, overriding the supplied
instruction list. -/
theorem c5_witness :
    ([Action.OtherAction 0] ≠ ([] : List Action))
  ∧ __get_instructions_for_actions (some [Action.OtherAction 0])
      (some [Instruction.OtherInstruction 8]) =
      [Instruction.OFPInstructionActions OFPIT_APPLY_ACTIONS
        [Action.OtherAction 0]] := by
  refine ⟨by simp, ?_⟩
  exact c5_instruction_assembly.1 [Action.OtherAction 0]
    (some [Instruction.OtherInstruction 8]) (by simp)

/-- Claim C6: `delete_all_flows_from_table` dispatches exactly what
`delete_flow` dispatches for the same table with the empty match and no
actions or instructions, with the same retry count; that message is a
delete-command flow-mod with an unconstrained match, wildcard output group
and port, and an empty instruction list. -/
theorem c6_delete_all_refines_delete :
    ∀ (channel : Channel) (table retries : Nat),
      delete_all_flows_from_table channel table retries =
        delete_flow channel table MagmaMatch.empty none none retries
    ∧ delete_flow_msg table MagmaMatch.empty none none =
        { command := OFPFC_DELETE
          table_id := table
          ofp_match := []
          instructions := []
          priority := none
          cookie := none
          idle_timeout := none
          hard_timeout := none
          out_group := some OFPG_ANY
          out_port := some OFPP_ANY } := by
  intro channel table retries
  exact ⟨rfl, rfl⟩

/-- Claim C7: with retry budget `r`, a channel failing the first `r`
attempts and succeeding on attempt `r` lets `add_flow` report success after
`r + 1` attempts; an always-failing channel makes it fail with a terminal
dispatch error after exactly `r + 1` attempts, at least two of them (one a
retry) when `r > 0`; and for every channel the retry count reaches the
dispatch layer unchanged. -/
theorem c7_retry_discipline (r : Nat) (ch_ev ch_fail : Channel)
    (hev : ∀ msg i, ch_ev msg i = decide (r ≤ i))
    (hfail : ∀ msg i, ch_fail msg i = false)
    (scratch_regs : List Nat) (table : Nat) (mtch : MagmaMatch)
    (actions : Option (List Action)) (insts : Option (List Instruction))
    (p ck it ht : Nat) (rns rcs : Option Nat) (mod : OFPFlowMod)
    (hok : get_add_flow_msg scratch_regs table mtch actions insts p ck it ht
        rns rcs = Except.ok mod) :
    add_flow scratch_regs ch_ev table mtch actions insts p r ck it ht rns rcs
        = Except.ok (r + 1)
  ∧ add_flow scratch_regs ch_fail table mtch actions insts p r ck it ht rns rcs
        = Except.error (FlowOpError.DispatchError (r + 1))
  ∧ (0 < r → 2 ≤ r + 1)
  ∧ ∀ (channel : Channel) (retries : Nat),
      add_flow scratch_regs channel table mtch actions insts p retries ck it ht
          rns rcs =
        Except.mapError FlowOpError.DispatchError (send_msg channel mod retries) := by
  have hloop_ev : send_msg ch_ev mod r = Except.ok (r + 1) :=
    send_loop_eventual ch_ev mod r (hev mod) r 0 (by omega)
  have hloop_fail : send_msg ch_fail mod r = Except.error (r + 1) := by
    have h := send_loop_all_fail ch_fail mod (hfail mod) r 0
    simpa [send_msg] using h
  refine ⟨?_, ?_, fun h => by omega, ?_⟩
  · unfold add_flow
    rw [hok]
    simp [hloop_ev]
  · unfold add_flow
    rw [hok]
    simp [hloop_fail]
  · intro channel retries
    unfold add_flow
    rw [hok]
    cases hsend : send_msg channel mod retries with
    | ok n => simp [Except.mapError, hsend]
    | error n => simp [Except.mapError, hsend]

/-- Witness for C7 at `r = 1` on the trivial rule: success after 2 attempts
on a channel that first succeeds at attempt 1; terminal dispatch failure
carrying 2 attempts on an always-failing channel. -/
theorem c7_witness :
    add_flow [] (fun _ i => decide (1 ≤ i)) 0 MagmaMatch.empty none none 0 1
        0 0 0 none none = Except.ok 2
  ∧ add_flow [] (fun _ _ => false) 0 MagmaMatch.empty none none 0 1
        0 0 0 none none = Except.error (FlowOpError.DispatchError 2) := by
  have h := c7_retry_discipline 1 (fun _ i => decide (1 ≤ i)) (fun _ _ => false)
    (fun _ _ => rfl) (fun _ _ => rfl) [] 0 MagmaMatch.empty none none
    0 0 0 0 none none
    { command := OFPFC_ADD
      table_id := 0
      ofp_match := []
      instructions := []
      priority := some 0
      cookie := some 0
      idle_timeout := some 0
      hard_timeout := some 0
      out_group := none
      out_port := none } rfl
  exact ⟨h.1, h.2.1⟩

/-- Claim C8: `DEFAULT_PRIORITY = 10`, `MINIMUM_PRIORITY = 0`,
`MAXIMUM_PRIORITY = 65535`; the signatures of `add_flow` and
`get_add_flow_msg` default `priority` to `MINIMUM_PRIORITY`, which differs
from `DEFAULT_PRIORITY`; and every message compiled at that default carries
priority `0`. -/
theorem c8_priority_default :
    DEFAULT_PRIORITY = 10
  ∧ MINIMUM_PRIORITY = 0
  ∧ MAXIMUM_PRIORITY = 65535
  ∧ signature_default_priority = MINIMUM_PRIORITY
  ∧ signature_default_priority ≠ DEFAULT_PRIORITY
  ∧ ∀ (scratch_regs : List Nat) (table : Nat) (mtch : MagmaMatch)
      (actions : Option (List Action)) (insts : Option (List Instruction))
      (ck it ht : Nat) (rns rcs : Option Nat) (msg : OFPFlowMod),
      get_add_flow_msg scratch_regs table mtch actions insts
          signature_default_priority ck it ht rns rcs = Except.ok msg →
      msg.priority = some MINIMUM_PRIORITY := by
  refine ⟨rfl, rfl, rfl, rfl, by decide, ?_⟩
  intro scratch_regs table mtch actions insts ck it ht rns rcs msg h
  exact priority_of_ok scratch_regs table mtch actions insts
    signature_default_priority ck it ht rns rcs msg h

/-- Witness for C8: the trivial rule compiled at the signatures' default
priority carries priority `0`. -/
theorem c8_witness :
    get_add_flow_msg [] 0 MagmaMatch.empty none none signature_default_priority
        0 0 0 none none =
      Except.ok
        { command := OFPFC_ADD
          table_id := 0
          ofp_match := []
          instructions := []
          priority := some 0
          cookie := some 0
          idle_timeout := some 0
          hard_timeout := some 0
          out_group := none
          out_port := none }
  ∧ OFPFlowMod.priority
      { command := OFPFC_ADD
        table_id := 0
        ofp_match := []
        instructions := []
        priority := some 0
        cookie := some 0
        idle_timeout := some 0
        hard_timeout := some 0
        out_group := none
        out_port := none } = some MINIMUM_PRIORITY := by
  refine ⟨rfl, ?_⟩
  exact c8_priority_default.2.2.2.2.2 [] 0 MagmaMatch.empty none none
    0 0 0 none none _ rfl

/-- Claim C9: supplying both `resubmit_next_service = n` and
`resubmit_current_service = c` raises no error: the result is identical to
supplying only the next-service target (which appends the forward to `n`
and the scratch resets after the scratch-load check), so the
current-service target is silently ignored. -/
theorem c9_next_service_precedence
    (scratch_regs : List Nat) (table n c : Nat) (mtch : MagmaMatch)
    (A : List Action) (instructions : Option (List Instruction))
    (p ck it ht : Nat)
    (hnores : ∀ t, Action.NXActionResubmitTable t ∉ A)
    (hnoscr : ∀ r v, r ∈ scratch_regs → Action.NXActionRegLoad2 r v ∉ A) :
    (∀ (acts : Option (List Action)) (insts : Option (List Instruction)),
      get_add_flow_msg scratch_regs table mtch acts insts p ck it ht
          (some n) (some c) =
        get_add_flow_msg scratch_regs table mtch acts insts p ck it ht
          (some n) none)
  ∧ get_add_flow_msg scratch_regs table mtch (some A) instructions p ck it ht
        (some n) (some c) =
      Except.ok
        { command := OFPFC_ADD
          table_id := table
          ofp_match := mtch.ryu_match
          instructions := [Instruction.OFPInstructionActions OFPIT_APPLY_ACTIONS
            (A ++ [Action.NXActionResubmitTable n] ++
              scratch_regs.map fun reg => Action.NXActionRegLoad2 reg 0)]
          priority := some p
          cookie := some ck
          idle_timeout := some it
          hard_timeout := some ht
          out_group := none
          out_port := none } := by
  constructor
  · intro acts insts
    rfl
  · have h := add_msg_next scratch_regs table n mtch A instructions p ck it ht
      (some c) (check_resubmit_false_of A hnores)
      (check_scratch_false_of scratch_regs A hnoscr)
    simpa [REG_ZERO_VAL] using h

/-- Witness for C9: next service `4` and current service `9` supplied
together on scratch set `[1]`; the current-service target is ignored. -/
theorem c9_witness :
    (∀ t, Action.NXActionResubmitTable t ∉ [Action.OtherAction 2])
  ∧ (∀ r v, r ∈ ([1] : List Nat) →
      Action.NXActionRegLoad2 r v ∉ [Action.OtherAction 2])
  ∧ get_add_flow_msg [1] 0 MagmaMatch.empty (some [Action.OtherAction 2])
      none 0 0 0 0 (some 4) (some 9) =
    get_add_flow_msg [1] 0 MagmaMatch.empty (some [Action.OtherAction 2])
      none 0 0 0 0 (some 4) none
  ∧ get_add_flow_msg [1] 0 MagmaMatch.empty (some [Action.OtherAction 2])
      none 0 0 0 0 (some 4) (some 9) =
      Except.ok
        { command := OFPFC_ADD
          table_id := 0
          ofp_match := []
          instructions := [Instruction.OFPInstructionActions OFPIT_APPLY_ACTIONS
            [Action.OtherAction 2, Action.NXActionResubmitTable 4,
             Action.NXActionRegLoad2 1 0]]
          priority := some 0
          cookie := some 0
          idle_timeout := some 0
          hard_timeout := some 0
          out_group := none
          out_port := none } := by
  have h := c9_next_service_precedence [1] 0 4 9 MagmaMatch.empty
    [Action.OtherAction 2] none 0 0 0 0
    (fun t ht => by simp at ht) (fun r v _ hm => by simp at hm)
  refine ⟨fun t ht => by simp at ht, fun r v _ hm => by simp at hm,
    h.1 (some [Action.OtherAction 2]) none, by simpa using h.2⟩

/-- Claim C10: `delete_flow` applies none of the add path's structural
checks: any action list — even one carrying a raw resubmit or a
scratch-register load — is wrapped unchecked into the delete message's
instructions (`delete_flow`'s result type admits no compile error at all,
only dispatch failures), while the same list makes `get_add_flow_msg` fail. -/
theorem c10_delete_flow_unchecked (table : Nat) (mtch : MagmaMatch)
    (A : List Action) (insts : Option (List Instruction)) :
    (A ≠ [] → (delete_flow_msg table mtch (some A) insts).instructions =
      [Instruction.OFPInstructionActions OFPIT_APPLY_ACTIONS A])
  ∧ (A = [] →
      (delete_flow_msg table mtch (some A) insts).instructions = insts.getD [])
  ∧ (delete_flow_msg table mtch (some A) insts).command = OFPFC_DELETE
  ∧ (∀ (channel : Channel) (retries : Nat),
      delete_flow channel table mtch (some A) insts retries =
        send_msg channel (delete_flow_msg table mtch (some A) insts) retries)
  ∧ (∀ t, Action.NXActionResubmitTable t ∈ A →
      ∀ (scratch_regs : List Nat) (p ck it ht : Nat) (rns rcs : Option Nat),
        get_add_flow_msg scratch_regs table mtch (some A) insts p ck it ht
          rns rcs = Except.error CompileError.RawResubmitNotAllowed) := by
  refine ⟨?_, ?_, rfl, fun channel retries => rfl, ?_⟩
  · intro h
    exact geti_nonempty A insts h
  · intro h
    subst h
    rfl
  · intro t hmem scratch_regs p ck it ht rns rcs
    exact add_msg_raw_error scratch_regs table mtch (some A) insts p ck it ht
      rns rcs (check_resubmit_true_of A t hmem)

/-- Witness for C10: the action list `[resubmit 2, scratch load]` that the
add path rejects is wrapped verbatim by the delete path. -/
theorem c10_witness :
    ([Action.NXActionResubmitTable 2, Action.NXActionRegLoad2 1 5] ≠
      ([] : List Action))
  ∧ (delete_flow_msg 0 MagmaMatch.empty
      (some [Action.NXActionResubmitTable 2, Action.NXActionRegLoad2 1 5])
      none).instructions =
      [Instruction.OFPInstructionActions OFPIT_APPLY_ACTIONS
        [Action.NXActionResubmitTable 2, Action.NXActionRegLoad2 1 5]]
  ∧ Action.NXActionResubmitTable 2 ∈
      [Action.NXActionResubmitTable 2, Action.NXActionRegLoad2 1 5]
  ∧ get_add_flow_msg [1] 0 MagmaMatch.empty
      (some [Action.NXActionResubmitTable 2, Action.NXActionRegLoad2 1 5])
      none 0 0 0 0 none none
      = Except.error CompileError.RawResubmitNotAllowed := by
  have h := c10_delete_flow_unchecked 0 MagmaMatch.empty
    [Action.NXActionResubmitTable 2, Action.NXActionRegLoad2 1 5] none
  refine ⟨by simp, h.1 (by simp), by simp, ?_⟩
  exact h.2.2.2.2 2 (by simp) [1] 0 0 0 0 none none

end Flows
